import Mathlib

/-!
Shallow embedding of the LearnMate backend (src/main.py, src/schemas.py).

Collections of the document store are embedded as typed lists held in a `DB`
state record; each HTTP handler of main.py becomes a Lean function that takes
the request data (and, where the handler reads ambient time, the current
date or timestamp as an explicit argument) together with the current `DB`
and returns the response paired with the new `DB`.
-/

namespace LearnMate

/-- Pydantic model `Profile` (schemas.py): username defaults to "guest",
full_name optional, language defaults to "en", push_notifications to true. -/
structure Profile where
  username : String := "guest"
  full_name : Option String := none
  language : String := "en"
  push_notifications : Bool := true
deriving Repr, DecidableEq

/-- Pydantic model `Course` (schemas.py). -/
structure Course where
  title : String
  subject : String
  description : Option String := none
deriving Repr, DecidableEq

/-- Pydantic model `Note` (schemas.py). -/
structure Note where
  username : String := "guest"
  title : String
  content : String := ""
deriving Repr, DecidableEq

/-- Pydantic model `Practice` (schemas.py). -/
structure Practice where
  username : String := "guest"
  date : String
  status : String := "completed"
deriving Repr, DecidableEq

/-- Pydantic model `QuizQuestion` (schemas.py); `correct_index` carries a
`ge=0` constraint in the schema, which holds of the fixed bank below. -/
structure QuizQuestion where
  subject : String
  text : String
  options : List String
  correct_index : Int
deriving Repr, DecidableEq, Inhabited

/-- Pydantic model `QuizResult` (schemas.py); `created_at` is an abstract
UTC timestamp. -/
structure QuizResult where
  username : String := "guest"
  subject : String
  total : Nat
  correct : Nat
  created_at : Nat
deriving Repr, DecidableEq

/-- Pydantic model `Notification` (schemas.py): username defaults to
"guest", kind defaults to "info". -/
structure Notification where
  username : String := "guest"
  message : String
  kind : String := "info"
deriving Repr, DecidableEq

/-- A stored profile document.  Documents written by `create_document` carry
every Profile field; documents created by the `$set` upsert of
`update_profile` carry only the username (from the filter) plus the fields
explicitly sent, so every field other than username is optional here
(`none` = field absent from the stored document). -/
structure ProfileDoc where
  username : String
  full_name : Option String := none
  language : Option String := none
  push_notifications : Option Bool := none
deriving Repr, DecidableEq

/-- The document store: one list per MongoDB collection used by main.py,
lists kept in insertion order. -/
structure DB where
  courses : List Course := []
  notes : List Note := []
  practices : List Practice := []
  quizresults : List QuizResult := []
  profiles : List ProfileDoc := []
  notifications : List Notification := []
deriving Repr, DecidableEq

/-- Modelled from the spec: `create_document` (database.py, not under src/)
performs a single insert-one of a schema object into the named collection;
embedded here (and in the sibling inserts below) as appending the typed
record to the collection's list. -/
def DB.insertCourse (db : DB) (c : Course) : DB :=
  { db with courses := db.courses ++ [c] }

def DB.insertNote (db : DB) (n : Note) : DB :=
  { db with notes := db.notes ++ [n] }

def DB.insertPractice (db : DB) (p : Practice) : DB :=
  { db with practices := db.practices ++ [p] }

def DB.insertQuizResult (db : DB) (r : QuizResult) : DB :=
  { db with quizresults := db.quizresults ++ [r] }

def DB.insertProfileDoc (db : DB) (d : ProfileDoc) : DB :=
  { db with profiles := db.profiles ++ [d] }

def DB.insertNotification (db : DB) (n : Notification) : DB :=
  { db with notifications := db.notifications ++ [n] }

/-- Python truthiness fallback `x or "guest"` on an Optional[str]: both
`None` and the empty string fall back to "guest". -/
def orGuest : Option String → String
  | none => "guest"
  | some s => if s = "" then "guest" else s

/-- Python truthiness fallback `x or "General"` on an Optional[str]. -/
def orGeneral : Option String → String
  | none => "General"
  | some s => if s = "" then "General" else s

/-- HTTP error raised via `HTTPException(code, detail)`. -/
inductive HTTPError where
  | httpException (code : Nat) (detail : String)
deriving Repr, DecidableEq

/-- Request body of POST /notes (`NoteCreate` in main.py). -/
structure NoteCreate where
  title : String
  content : String
  username : Option String := some "guest"
deriving Repr, DecidableEq

/-- Request body of POST /quiz/submit (`QuizAnswer` in main.py). -/
structure QuizAnswer where
  answers : List Int
  subject : Option String := some "General"
  username : Option String := some "guest"
deriving Repr, DecidableEq

/-- Request body of POST /profile (`ProfileUpdate` in main.py): every field
optional, `none` meaning absent or explicitly null. -/
structure ProfileUpdate where
  username : Option String := some "guest"
  full_name : Option String := none
  language : Option String := none
  push_notifications : Option Bool := none
deriving Repr, DecidableEq

/-- The five (title, subject) pairs inserted by POST /seed. -/
def seedSubjects : List (String × String) :=
  [("Mathematics", "Mathematics"), ("Science", "Science"),
   ("English", "English"), ("Computer/ICT", "Computer/ICT"),
   ("Social Studies", "Social Studies")]

/-- POST /seed (`seed_data` in main.py): if the course collection is empty,
insert the five sample courses and one Notification built from a message
alone. -/
def seed_data (db : DB) : DB :=
  if db.courses.length = 0 then
    let db := seedSubjects.foldl
      (fun db ts =>
        db.insertCourse { title := ts.1, subject := ts.2, description := some ("Intro to " ++ ts.2) }) db
    db.insertNotification { message := "New course added!" }
  else db

/-- POST /notes (`add_note` in main.py): build a Note with the falsy-fallback
username, insert it, then insert a Notification built from a message alone. -/
def add_note (payload : NoteCreate) (db : DB) : String × DB :=
  let note : Note :=
    { username := orGuest payload.username, title := payload.title, content := payload.content }
  let db := db.insertNote note
  let db := db.insertNotification { message := "New note saved" }
  ("Note saved successfully", db)

/-- The filter `{"username": username, "title": title}` used by DELETE /notes. -/
def noteMatch (username title : String) (n : Note) : Bool :=
  n.username = username && n.title = title

/-- DELETE /notes/{title} (`delete_note` in main.py): `delete_one` removes
the first matching document; deleted_count = 0 yields HTTP 404, otherwise a
Notification is inserted. -/
def delete_note (title : String) (username : String) (db : DB) :
    Except HTTPError (String × DB) :=
  if db.notes.any (noteMatch username title) then
    let db := { db with notes := db.notes.eraseP (noteMatch username title) }
    let db := db.insertNotification { message := "Note deleted successfully" }
    .ok ("Note deleted successfully", db)
  else
    .error (.httpException 404 "Note not found")

/-- POST /practice/start (`start_practice` in main.py); `today` is the
server's current date string, passed explicitly. -/
def start_practice (username : String) (today : String) (db : DB) : String × DB :=
  match db.practices.find? (fun p => p.username = username && p.date = today) with
  | some _ => ("You have completed today’s practice, try again tomorrow", db)
  | none =>
    let db := db.insertPractice { username := username, date := today, status := "completed" }
    let db := db.insertNotification { message := "Start today’s practice" }
    ("Practice saved successfully", db)

/-- GET /practice/history (`practice_history` in main.py). -/
def practice_history (username : String) (db : DB) : List (String × String) :=
  (db.practices.filter (fun p => p.username = username)).map (fun p => (p.date, p.status))

/-- The fixed in-memory question bank `SAMPLE_QUESTIONS` of main.py. -/
def SAMPLE_QUESTIONS : List QuizQuestion :=
  [{ subject := "General", text := "2 + 2 = ?",
     options := ["3", "4", "5", "6"], correct_index := 1 },
   { subject := "General", text := "Capital of France?",
     options := ["Berlin", "Paris", "Madrid", "Rome"], correct_index := 1 }]

/-- GET /quiz/questions (`get_quiz_questions` in main.py): the subject query
parameter is accepted but unused. -/
def get_quiz_questions (_subject : String) : List QuizQuestion :=
  SAMPLE_QUESTIONS

/-- `payload.answers[i] if i < len(payload.answers) else -1`: the answer used
for bank position i, with sentinel -1 for missing positions.  Total by
construction: the list is only indexed under the bound check. -/
def effectiveAnswer (answers : List Int) (i : Nat) : Int :=
  if h : i < answers.length then answers.get ⟨i, h⟩ else -1

/-- The scoring loop of `submit_quiz`: count bank positions whose effective
answer equals that question's correct_index. -/
def correctCount (answers : List Int) : Nat :=
  (SAMPLE_QUESTIONS.enum.filter
    (fun iq => effectiveAnswer answers iq.1 = iq.2.correct_index)).length

/-- Response body of POST /quiz/submit. -/
structure QuizSubmitResponse where
  message : String
  correct : Nat
  total : Nat
deriving Repr, DecidableEq

/-- POST /quiz/submit (`submit_quiz` in main.py); `now` is the current UTC
timestamp, passed explicitly. -/
def submit_quiz (payload : QuizAnswer) (now : Nat) (db : DB) :
    QuizSubmitResponse × DB :=
  let total := SAMPLE_QUESTIONS.length
  let correct := correctCount payload.answers
  let db := db.insertQuizResult
    { username := orGuest payload.username, subject := orGeneral payload.subject,
      total := total, correct := correct, created_at := now }
  let db := db.insertNotification { message := s!"Your quiz score: {correct}/{total}" }
  ({ message := "You have completed the quiz!", correct := correct, total := total }, db)

/-- `Profile(username=username)`: the lazily created default profile. -/
def defaultProfile (username : String) : Profile :=
  { username := username }

/-- `create_document("profile", profile)` stores every model field. -/
def docOfProfile (p : Profile) : ProfileDoc :=
  { username := p.username, full_name := p.full_name,
    language := some p.language, push_notifications := some p.push_notifications }

/-- `Profile(**{k: v for k, v in doc.items() if k in Profile.model_fields})`:
rebuild a Profile from a stored document, schema defaults filling fields the
document lacks. -/
def profileOfDoc (d : ProfileDoc) : Profile :=
  { username := d.username, full_name := d.full_name,
    language := d.language.getD "en",
    push_notifications := d.push_notifications.getD true }

/-- GET /profile (`get_profile` in main.py): find_one by username; if absent,
construct the default Profile, persist it and return it. -/
def get_profile (username : String) (db : DB) : Profile × DB :=
  match db.profiles.find? (fun d => d.username = username) with
  | none =>
    let profile := defaultProfile username
    (profile, db.insertProfileDoc (docOfProfile profile))
  | some doc => (profileOfDoc doc, db)

/-- `$set` of the non-null payload fields (username excluded) onto a stored
document: a field is overwritten exactly when the payload supplies it. -/
def applySet (payload : ProfileUpdate) (d : ProfileDoc) : ProfileDoc :=
  { d with
    full_name := match payload.full_name with
      | some v => some v
      | none => d.full_name,
    language := match payload.language with
      | some v => some v
      | none => d.language,
    push_notifications := match payload.push_notifications with
      | some v => some v
      | none => d.push_notifications }

/-- The document created by the upsert branch of `update_one(..., upsert)`:
the filter's username equality plus exactly the `$set` fields. -/
def upsertDoc (payload : ProfileUpdate) (username : String) : ProfileDoc :=
  { username := username, full_name := payload.full_name,
    language := payload.language, push_notifications := payload.push_notifications }

/-- `update_one` rewrites only the first matching document. -/
def updateFirstMatching (p : α → Bool) (f : α → α) : List α → List α
  | [] => []
  | a :: as => if p a then f a :: as else a :: updateFirstMatching p f as

/-- POST /profile (`update_profile` in main.py): `$set` upsert keyed on the
falsy-fallback username, then a Notification built from a message alone. -/
def update_profile (payload : ProfileUpdate) (db : DB) : String × DB :=
  let username := orGuest payload.username
  let db :=
    if db.profiles.any (fun d => d.username = username) then
      { db with profiles :=
          updateFirstMatching (fun d => d.username = username) (applySet payload) db.profiles }
    else
      { db with profiles := db.profiles ++ [upsertDoc payload username] }
  let db := db.insertNotification { message := "Profile updated" }
  ("Saved successfully", db)

/-- Modelled from the spec: `get_documents` (database.py, not under src/)
returns the documents of a collection matching a filter; GET /notifications
(`get_notifications` in main.py) calls it with the filter
`{"$or": [{"username": username}, {"username": "guest"}]}`. -/
def get_notifications (username : String) (db : DB) : List Notification :=
  db.notifications.filter (fun n => n.username = username || n.username = "guest")

/-- Number of stored Practice records matching a (username, date) pair. -/
def practiceCount (db : DB) (username today : String) : Nat :=
  (db.practices.filter (fun p => p.username = username && p.date = today)).length

/-- A notification on the broadcast channel with default kind. -/
def guestInfo (n : Notification) : Prop :=
  n.username = "guest" ∧ n.kind = "info"

/-- The second state extends the first's notification log, and every appended
notification is a broadcast ("guest") notification of kind "info". -/
def onlyGuestInfoAdded (db₁ db₂ : DB) : Prop :=
  ∃ ns, db₂.notifications = db₁.notifications ++ ns ∧ ∀ n ∈ ns, guestInfo n

/- Helper lemmas about the list operations modelling the store. -/

theorem filter_eraseP (p : α → Bool) (l : List α) :
    (l.eraseP p).filter p = (l.filter p).drop 1 := by
  induction l with
  | nil => rfl
  | cons a as ih =>
    by_cases h : p a = true
    · simp [List.eraseP_cons, List.filter_cons, h]
    · simp [List.eraseP_cons, List.filter_cons, h, ih]

theorem filter_not_eraseP (p : α → Bool) (l : List α) :
    (l.eraseP p).filter (fun a => ! p a) = l.filter (fun a => ! p a) := by
  induction l with
  | nil => rfl
  | cons a as ih =>
    by_cases h : p a = true
    · simp [List.eraseP_cons, List.filter_cons, h]
    · simp [List.eraseP_cons, List.filter_cons, h, ih]

theorem updateFirstMatching_split (p : α → Bool) (f : α → α) (pre post : List α) (d : α)
    (hpre : ∀ x ∈ pre, ¬ p x = true) (hd : p d = true) :
    updateFirstMatching p f (pre ++ d :: post) = pre ++ f d :: post := by
  induction pre with
  | nil => simp [updateFirstMatching, hd]
  | cons a as ih =>
    have ha : ¬ p a = true := hpre a (by simp)
    have ih2 := ih (fun x hx => hpre x (by simp [hx]))
    simp [updateFirstMatching, ha, ih2]

/-- C1: calling practice-start twice for the same username on the same date
leaves exactly one Practice record for that (username, date) pair; the second
call returns the "already completed today" message and changes no collection
(no practice insert, no notification insert). -/
theorem start_practice_idempotent_same_day (username today : String) (db : DB)
    (h : db.practices.find? (fun p => p.username = username && p.date = today) = none) :
    practiceCount (start_practice username today db).2 username today = 1 ∧
    (start_practice username today (start_practice username today db).2).1 =
      "You have completed today’s practice, try again tomorrow" ∧
    (start_practice username today (start_practice username today db).2).2 =
      (start_practice username today db).2 := by
  have hfil : db.practices.filter (fun p => p.username = username && p.date = today) = [] := by
    rw [List.filter_eq_nil_iff]
    exact List.find?_eq_none.1 h
  have hstep : (start_practice username today db).2 =
      { db with
        practices := db.practices ++ [{ username := username, date := today, status := "completed" }],
        notifications := db.notifications ++ [{ message := "Start today’s practice" }] } := by
    simp [start_practice, h, DB.insertPractice, DB.insertNotification]
  have hfind2 : ({ db with
        practices := db.practices ++ [{ username := username, date := today, status := "completed" }],
        notifications := db.notifications ++ [{ message := "Start today’s practice" }] } : DB).practices.find?
          (fun p => p.username = username && p.date = today) =
        some { username := username, date := today, status := "completed" } := by
    simp [List.find?_append, h]
  constructor
  · rw [hstep]
    simp [practiceCount, List.filter_append, hfil]
  · rw [hstep]
    constructor
    · simp [start_practice, hfind2]
    · simp [start_practice, hfind2]

theorem start_practice_idempotent_same_day_witness :
    practiceCount (start_practice "guest" "2024-01-01" {}).2 "guest" "2024-01-01" = 1 ∧
    (start_practice "guest" "2024-01-01" (start_practice "guest" "2024-01-01" {}).2).1 =
      "You have completed today’s practice, try again tomorrow" ∧
    (start_practice "guest" "2024-01-01" (start_practice "guest" "2024-01-01" {}).2).2 =
      (start_practice "guest" "2024-01-01" {}).2 :=
  start_practice_idempotent_same_day "guest" "2024-01-01" {} rfl

/-- C2: quiz submission scores positionally against the fixed bank:
answers [1, 1] give correct = 2 and total = 2, the empty list gives
correct = 0 and total = 2, and the reported total always equals the bank
length. -/
theorem submit_quiz_scoring (payload : QuizAnswer) (now : Nat) (db : DB) :
    (submit_quiz { answers := [1, 1] } now db).1.correct = 2 ∧
    (submit_quiz { answers := [1, 1] } now db).1.total = 2 ∧
    (submit_quiz { answers := [] } now db).1.correct = 0 ∧
    (submit_quiz { answers := [] } now db).1.total = 2 ∧
    (submit_quiz payload now db).1.total = SAMPLE_QUESTIONS.length :=
  ⟨rfl, rfl, rfl, rfl, rfl⟩

/-- C6: the notification listing returns exactly the stored notifications
addressed to the requested username or to the broadcast username "guest". -/
theorem notifications_include_user_and_guest (username : String) (db : DB) (n : Notification) :
    n ∈ get_notifications username db ↔
      n ∈ db.notifications ∧ (n.username = username ∨ n.username = "guest") := by
  simp [get_notifications, List.mem_filter]

/-- A concrete store holding one broadcast notification. -/
def dbHello : DB := { notifications := [{ message := "hello" }] }

theorem notifications_include_user_and_guest_witness :
    ({ message := "hello" } : Notification) ∈ dbHello.notifications ∧
      (({ message := "hello" } : Notification).username = "alice" ∨
        ({ message := "hello" } : Notification).username = "guest") :=
  (notifications_include_user_and_guest "alice" dbHello { message := "hello" }).1 (by decide)

/-- C7: the subject query parameter of the quiz-questions listing is ignored:
every subject value yields the full fixed bank. -/
theorem quiz_questions_subject_ignored (s t : String) :
    get_quiz_questions s = SAMPLE_QUESTIONS ∧ get_quiz_questions s = get_quiz_questions t :=
  ⟨rfl, rfl⟩

/-- C8: when the answer list is shorter than the bank, each missing position
is scored with the sentinel -1, every bank question has correct_index ≥ 0,
and hence the sentinel never matches, so such positions are always wrong
(and indexing is guarded, so no out-of-bounds access happens). -/
theorem quiz_short_answers_sentinel (answers : List Int) (i : Nat)
    (hlt : i < SAMPLE_QUESTIONS.length) (hge : answers.length ≤ i) :
    effectiveAnswer answers i = -1 ∧
    0 ≤ (SAMPLE_QUESTIONS.getD i default).correct_index ∧
    effectiveAnswer answers i ≠ (SAMPLE_QUESTIONS.getD i default).correct_index := by
  have h1 : effectiveAnswer answers i = -1 := by
    unfold effectiveAnswer
    rw [dif_neg (by omega)]
  have hlt2 : i < 2 := by simpa [SAMPLE_QUESTIONS] using hlt
  have h2 : 0 ≤ (SAMPLE_QUESTIONS.getD i default).correct_index := by
    rcases (by omega : i = 0 ∨ i = 1) with hi | hi <;> subst hi <;> decide
  exact ⟨h1, h2, by rw [h1]; omega⟩

theorem quiz_short_answers_sentinel_witness :
    effectiveAnswer [] 0 = -1 ∧
    0 ≤ (SAMPLE_QUESTIONS.getD 0 default).correct_index ∧
    effectiveAnswer [] 0 ≠ (SAMPLE_QUESTIONS.getD 0 default).correct_index :=
  quiz_short_answers_sentinel [] 0 (by decide) (by decide)

/-- C3: reading the profile of a username with no stored record returns the
default Profile (language "en", push_notifications true), persists exactly
that document, and a second read returns the same values while changing
nothing. -/
theorem get_profile_creates_default_once (username : String) (db : DB)
    (h : db.profiles.find? (fun d => d.username = username) = none) :
    (get_profile username db).1 = defaultProfile username ∧
    (defaultProfile username).language = "en" ∧
    (defaultProfile username).push_notifications = true ∧
    (get_profile username db).2.profiles =
      db.profiles ++ [docOfProfile (defaultProfile username)] ∧
    (get_profile username (get_profile username db).2).1 = defaultProfile username ∧
    (get_profile username (get_profile username db).2).2 = (get_profile username db).2 := by
  have hstep : get_profile username db =
      (defaultProfile username, db.insertProfileDoc (docOfProfile (defaultProfile username))) := by
    simp [get_profile, h]
  have hfind2 : (db.insertProfileDoc (docOfProfile (defaultProfile username))).profiles.find?
      (fun d => d.username = username) = some (docOfProfile (defaultProfile username)) := by
    simp [DB.insertProfileDoc, List.find?_append, h, docOfProfile, defaultProfile]
  have hstep2 : get_profile username (db.insertProfileDoc (docOfProfile (defaultProfile username))) =
      (defaultProfile username, db.insertProfileDoc (docOfProfile (defaultProfile username))) := by
    unfold get_profile
    rw [hfind2]
    rfl
  refine ⟨by rw [hstep], rfl, rfl, by rw [hstep]; rfl, ?_, ?_⟩
  · rw [hstep, hstep2]
  · rw [hstep, hstep2]

theorem get_profile_creates_default_once_witness :
    (get_profile "alice" {}).1 = defaultProfile "alice" ∧
    (defaultProfile "alice").language = "en" ∧
    (defaultProfile "alice").push_notifications = true ∧
    (get_profile "alice" {}).2.profiles =
      ({} : DB).profiles ++ [docOfProfile (defaultProfile "alice")] ∧
    (get_profile "alice" (get_profile "alice" {}).2).1 = defaultProfile "alice" ∧
    (get_profile "alice" (get_profile "alice" {}).2).2 = (get_profile "alice" {}).2 :=
  get_profile_creates_default_once "alice" {} rfl

/-- C4: note deletion yields HTTP 404 exactly when no stored note matches the
(username, title) pair; when at least one matches, it succeeds, removes
exactly one matching record, and leaves every non-matching record unchanged. -/
theorem delete_note_not_found_iff (title username : String) (db : DB) :
    (delete_note title username db = .error (.httpException 404 "Note not found") ↔
      (db.notes.filter (noteMatch username title)).length = 0) ∧
    ((db.notes.filter (noteMatch username title)).length > 0 →
      ∃ db₂, delete_note title username db = .ok ("Note deleted successfully", db₂) ∧
        (db₂.notes.filter (noteMatch username title)).length =
          (db.notes.filter (noteMatch username title)).length - 1 ∧
        db₂.notes.filter (fun n => ! noteMatch username title n) =
          db.notes.filter (fun n => ! noteMatch username title n)) := by
  by_cases hany : db.notes.any (noteMatch username title) = true
  · constructor
    · constructor
      · intro heq
        simp [delete_note, hany] at heq
      · intro hlen
        exfalso
        have hnil := List.eq_nil_of_length_eq_zero hlen
        rcases List.any_eq_true.1 hany with ⟨a, ha, hpa⟩
        exact (List.filter_eq_nil_iff.1 hnil) a ha hpa
    · intro _
      have hdel : delete_note title username db =
          .ok ("Note deleted successfully",
            { db with
              notes := db.notes.eraseP (noteMatch username title),
              notifications := db.notifications ++ [{ message := "Note deleted successfully" }] }) := by
        simp [delete_note, hany, DB.insertNotification]
      refine ⟨_, hdel, ?_, ?_⟩
      · simp [filter_eraseP, List.length_drop]
      · exact filter_not_eraseP _ _
  · have hall : ∀ a ∈ db.notes, ¬ noteMatch username title a = true := by
      intro a ha hpa
      exact hany (List.any_eq_true.2 ⟨a, ha, hpa⟩)
    have hfil : db.notes.filter (noteMatch username title) = [] :=
      List.filter_eq_nil_iff.2 hall
    constructor
    · simp [delete_note, hany, hfil]
    · intro hlen
      rw [hfil] at hlen
      simp at hlen

/-- A concrete store holding one note, used to witness deletion. -/
def dbOneNote : DB := { notes := [{ username := "guest", title := "t", content := "c" }] }

theorem delete_note_not_found_iff_witness :
    ∃ db₂, delete_note "t" "guest" dbOneNote = .ok ("Note deleted successfully", db₂) ∧
      (db₂.notes.filter (noteMatch "guest" "t")).length =
        (dbOneNote.notes.filter (noteMatch "guest" "t")).length - 1 ∧
      db₂.notes.filter (fun n => ! noteMatch "guest" "t" n) =
        dbOneNote.notes.filter (fun n => ! noteMatch "guest" "t" n) :=
  (delete_note_not_found_iff "t" "guest" dbOneNote).2 (by decide)

/-- C5: profile update has `$set` merge semantics: on an existing record only
the fields the payload supplies with a non-null value are overwritten and all
others are kept, and when no record matches, the upsert creates a document
holding the filter's username plus exactly the supplied fields — the schema
defaults are not applied on this path. -/
theorem update_profile_set_merge (payload : ProfileUpdate) (db : DB) :
    (∀ pre d post, db.profiles = pre ++ d :: post →
      (∀ x ∈ pre, ¬ x.username = orGuest payload.username) →
      d.username = orGuest payload.username →
      (update_profile payload db).2.profiles = pre ++ applySet payload d :: post) ∧
    ((∀ x ∈ db.profiles, ¬ x.username = orGuest payload.username) →
      (update_profile payload db).2.profiles =
        db.profiles ++ [upsertDoc payload (orGuest payload.username)]) ∧
    (upsertDoc payload (orGuest payload.username)).full_name = payload.full_name ∧
    (upsertDoc payload (orGuest payload.username)).language = payload.language ∧
    (upsertDoc payload (orGuest payload.username)).push_notifications =
      payload.push_notifications ∧
    (∀ d, (payload.full_name = none → (applySet payload d).full_name = d.full_name) ∧
      (payload.language = none → (applySet payload d).language = d.language) ∧
      (payload.push_notifications = none →
        (applySet payload d).push_notifications = d.push_notifications) ∧
      (∀ v, payload.full_name = some v → (applySet payload d).full_name = some v) ∧
      (∀ v, payload.language = some v → (applySet payload d).language = some v) ∧
      (∀ b, payload.push_notifications = some b →
        (applySet payload d).push_notifications = some b) ∧
      (applySet payload d).username = d.username) := by
  refine ⟨?_, ?_, rfl, rfl, rfl, ?_⟩
  · intro pre d post hsplit hpre hd
    have hany : db.profiles.any (fun x => x.username = orGuest payload.username) = true := by
      rw [hsplit]
      simp [hd]
    simp only [update_profile, hany, if_true, DB.insertNotification]
    rw [hsplit]
    exact updateFirstMatching_split (fun x => decide (x.username = orGuest payload.username))
      (applySet payload) pre post d
      (fun x hx => by simpa using hpre x hx) (by simpa using hd)
  · intro hall
    have hany : ¬ db.profiles.any (fun x => x.username = orGuest payload.username) = true := by
      intro hc
      rcases List.any_eq_true.1 hc with ⟨x, hx, hpx⟩
      exact hall x hx (by simpa using hpx)
    simp [update_profile, hany, DB.insertNotification]
  · intro d
    refine ⟨?_, ?_, ?_, ?_, ?_, ?_, rfl⟩ <;> first
      | (intro h; simp [applySet, h])
      | (intro v h; simp [applySet, h])

/-- A concrete stored profile document used to witness the `$set` merge. -/
def profDocA : ProfileDoc :=
  { username := "guest", full_name := some "G", language := some "fr",
    push_notifications := some false }

/-- A concrete store holding one profile document. -/
def dbProf : DB := { profiles := [profDocA] }

theorem update_profile_set_merge_witness :
    (update_profile { full_name := some "Z" } dbProf).2.profiles =
      [] ++ applySet { full_name := some "Z" } profDocA :: [] :=
  (update_profile_set_merge { full_name := some "Z" } dbProf).1 [] profDocA []
    rfl (by simp) (by decide)

/-- C9: every Notification any handler writes — seeding, note create, note
delete, practice start, quiz submit, profile update — is built from a message
alone, so it carries username "guest" and kind "info"; and every such
broadcast notification is visible to every requesting username through the
notification listing. -/
theorem notifications_always_guest_info (db : DB) (payload : NoteCreate)
    (qa : QuizAnswer) (pu : ProfileUpdate) (title username u d : String) (now : Nat) :
    onlyGuestInfoAdded db (seed_data db) ∧
    onlyGuestInfoAdded db (add_note payload db).2 ∧
    (∀ msg db₂, delete_note title username db = .ok (msg, db₂) → onlyGuestInfoAdded db db₂) ∧
    onlyGuestInfoAdded db (start_practice u d db).2 ∧
    onlyGuestInfoAdded db (submit_quiz qa now db).2 ∧
    onlyGuestInfoAdded db (update_profile pu db).2 ∧
    (∀ n req, n ∈ db.notifications → guestInfo n → n ∈ get_notifications req db) := by
  refine ⟨?_, ?_, ?_, ?_, ?_, ?_, ?_⟩
  · by_cases hc : db.courses.length = 0
    · refine ⟨[{ message := "New course added!" }], ?_, ?_⟩
      · simp [seed_data, hc, seedSubjects, DB.insertCourse, DB.insertNotification]
      · intro n hn
        simp at hn
        subst hn
        exact ⟨rfl, rfl⟩
    · exact ⟨[], by simp [seed_data, hc], by simp⟩
  · refine ⟨[{ message := "New note saved" }], ?_, ?_⟩
    · simp [add_note, DB.insertNote, DB.insertNotification]
    · intro n hn
      simp at hn
      subst hn
      exact ⟨rfl, rfl⟩
  · intro msg db₂ heq
    by_cases hany : db.notes.any (noteMatch username title) = true
    · have hdel : delete_note title username db =
          .ok ("Note deleted successfully",
            { db with
              notes := db.notes.eraseP (noteMatch username title),
              notifications := db.notifications ++ [{ message := "Note deleted successfully" }] }) := by
        simp [delete_note, hany, DB.insertNotification]
      rw [hdel] at heq
      have hdb : db₂ = { db with
          notes := db.notes.eraseP (noteMatch username title),
          notifications := db.notifications ++ [{ message := "Note deleted successfully" }] } := by
        cases heq
        rfl
      refine ⟨[{ message := "Note deleted successfully" }], by rw [hdb], ?_⟩
      intro n hn
      simp at hn
      subst hn
      exact ⟨rfl, rfl⟩
    · simp [delete_note, hany] at heq
  · cases hfind : db.practices.find? (fun p => p.username = u && p.date = d) with
    | some pr => exact ⟨[], by simp [start_practice, hfind], by simp⟩
    | none =>
      refine ⟨[{ message := "Start today’s practice" }], ?_, ?_⟩
      · simp [start_practice, hfind, DB.insertPractice, DB.insertNotification]
      · intro n hn
        simp at hn
        subst hn
        exact ⟨rfl, rfl⟩
  · refine ⟨[{ message := s!"Your quiz score: {correctCount qa.answers}/{SAMPLE_QUESTIONS.length}" }], ?_, ?_⟩
    · simp [submit_quiz, DB.insertQuizResult, DB.insertNotification]
    · intro n hn
      simp at hn
      subst hn
      exact ⟨rfl, rfl⟩
  · refine ⟨[{ message := "Profile updated" }], ?_, ?_⟩
    · by_cases hany : (db.profiles.any fun x => x.username = orGuest pu.username) = true <;>
        simp [update_profile, hany, DB.insertNotification]
    · intro n hn
      simp at hn
      subst hn
      exact ⟨rfl, rfl⟩
  · intro n req hn hgi
    simp only [get_notifications, List.mem_filter]
    refine ⟨hn, ?_⟩
    simp [hgi.1]

/-- A concrete store holding one broadcast notification. -/
def dbGuestNotif : DB := { notifications := [{ message := "m" }] }

theorem notifications_always_guest_info_witness :
    onlyGuestInfoAdded dbOneNote (add_note { title := "a", content := "b" } dbOneNote).2 ∧
    ({ message := "m" } : Notification) ∈ get_notifications "alice" dbGuestNotif :=
  ⟨(notifications_always_guest_info dbOneNote { title := "a", content := "b" }
      { answers := [] } {} "t" "guest" "u" "d" 0).2.1,
   (notifications_always_guest_info dbGuestNotif { title := "a", content := "b" }
      { answers := [] } {} "t" "guest" "u" "d" 0).2.2.2.2.2.2
     { message := "m" } "alice" (by decide) ⟨rfl, rfl⟩⟩

/-- C10: in note create, quiz submit, and profile update, a request username
that is explicitly null or the empty string falls back to "guest" before any
store access, so the resulting record is keyed under "guest", never under the
empty string. -/
theorem falsy_username_falls_back_to_guest (payload : NoteCreate) (qa : QuizAnswer)
    (pu : ProfileUpdate) (db : DB) (now : Nat) :
    (payload.username = none ∨ payload.username = some "" →
      (add_note payload db).2.notes =
        db.notes ++ [{ username := "guest", title := payload.title, content := payload.content }]) ∧
    (qa.username = none ∨ qa.username = some "" →
      (submit_quiz qa now db).2.quizresults =
        db.quizresults ++
          [{ username := "guest", subject := orGeneral qa.subject,
             total := SAMPLE_QUESTIONS.length, correct := correctCount qa.answers,
             created_at := now }]) ∧
    (pu.username = none ∨ pu.username = some "" →
      orGuest pu.username = "guest" ∧
      ((∀ x ∈ db.profiles, ¬ x.username = "guest") →
        (update_profile pu db).2.profiles = db.profiles ++ [upsertDoc pu "guest"])) := by
  have horg : ∀ o : Option String, (o = none ∨ o = some "") → orGuest o = "guest" := by
    rintro o (rfl | rfl) <;> rfl
  refine ⟨?_, ?_, ?_⟩
  · intro h
    simp [add_note, DB.insertNote, DB.insertNotification, horg _ h]
  · intro h
    simp [submit_quiz, DB.insertQuizResult, DB.insertNotification, horg _ h]
  · intro h
    refine ⟨horg _ h, ?_⟩
    intro hall
    have hcond : ¬ ∃ x ∈ db.profiles, x.username = "guest" := by
      rintro ⟨x, hx, hpx⟩
      exact hall x hx hpx
    simp [update_profile, DB.insertNotification, horg _ h, hcond]

theorem falsy_username_falls_back_to_guest_witness :
    (add_note { title := "t", content := "c", username := none } {}).2.notes =
      ({} : DB).notes ++ [{ username := "guest", title := "t", content := "c" }] :=
  (falsy_username_falls_back_to_guest { title := "t", content := "c", username := none }
    { answers := [] } {} {} 0).1 (Or.inl rfl)

end LearnMate
